import Mathlib

/-!
# Property bindings: the typed façades of `src/corelib/kernel/qproperty.h`

A shallow embedding of the façade classes `QProperty<T>`, `QNotifiedProperty<T, Callback, ValueGuard>`
and `QPropertyAlias<T>` together with the binding adaptor of `QPropertyBinding<T>`.

The façades are thin: every member function is a short sequence of calls on the engine object
`d.priv` (a `QtPrivate::QPropertyBase`) and on the storage `d` (a `QtPrivate::QPropertyValueStorage<T>`).
Both belong to `qpropertyprivate.h` / `qproperty.cpp`; the header only calls them.  The engine calls
are therefore modelled from the specification, and each such definition says so.

State is passed explicitly.  A `Machine` is one property (`d`), the evaluation context and the
chronological trace of engine calls and user call-backs made so far.  User functors whose body is
outside the header (change handlers, the owner call-back) appear in the trace as events; where
the state after a write matters, the functions ending in `_dispatching` also run that user code,
given as a `UserCode`.  A call for which the header has no viable overload yields `none`.
-/

namespace QtProperty

/-! ## Data model -/

/-- What the header takes from the type system for the value type `T`. -/
structure TypeInfo (T : Type) where
  /-- The trait `QTypeTraits::has_operator_equal_v<T>`: `some eq` when `T` has `operator==`
  (then `eq a b` is `a == b`), `none` when it has not. -/
  operator_eq : Option (T → T → Bool)
  /-- The constant `qMetaTypeId<T>()`. -/
  qMetaTypeId : Nat
  /-- The id of the meta type reported by a null binding. -/
  nullBindingTypeId : Nat
  /-- The default-constructed value `T()`. -/
  default : T

/-- The enum `QPropertyBindingError::Type`. -/
inductive QPropertyBindingErrorType where
  | NoError
  | BindingLoop
  | EvaluationError
  | UnknownError
  deriving DecidableEq, Repr

/-- The class `QPropertyObserver`, reduced to its tag and the payload of the union. -/
inductive QPropertyObserver where
  | ObserverNotifiesBinding (bindingToMarkDirty : Nat)
  | ObserverNotifiesChangeHandler (changeHandler : Nat)
  | ObserverNotifiesAlias (aliasedPropertyPtr : Nat)
  deriving DecidableEq, Repr

/-- Calls made by the façade on the engine and on user code, in the order they happen. -/
inductive Event (T : Type) where
  | removeBinding
  | setBinding (newBinding : Option Nat) (staticObserver : Bool)
  | evaluateIfDirty
  | evaluationFunction (binding : Nat)
  | registerWithCurrentlyEvaluatingBinding
  | setValueAndReturnTrueIfChanged (v : T)
  | notifyObservers (walked : List QPropertyObserver)
  | callback (oldValue : Option T)
  | functor (f : Nat)
  | setSource (o : QPropertyObserver)
  deriving DecidableEq, Repr

/-- Modelled from the spec: the shared binding object `QPropertyBindingPrivate` (section 3,
"Binding").  `id` stands for the identity of the shared object, `metaType` for `valueType`,
`evaluationFunction` for `evaluate` (it receives the target storage and returns `changed` together
with the storage it leaves behind).  The dependency set consists of observer nodes on upstream
cells and is outside a single-property model. -/
structure QPropertyBindingPrivate (T : Type) where
  id : Nat
  metaType : Nat
  evaluationFunction : T → Bool × T
  evaluating : Bool
  error : Option QPropertyBindingErrorType

/-- The class `QUntypedPropertyBinding`: the pointer `d`, `none` for a null binding.
`QPropertyBinding<T>` adds no data member, a typed binding is the same object. -/
abbrev QUntypedPropertyBinding (T : Type) := Option (QPropertyBindingPrivate T)

/-- Modelled from the spec: the engine part `QtPrivate::QPropertyBase` of a cell (section 3,
"PropertyCell"): the optional binding, the dirty flag and the observer list. -/
structure QPropertyBase (T : Type) where
  binding : QUntypedPropertyBinding T
  dirty : Bool
  observers : List QPropertyObserver

/-- Modelled from the spec: `QtPrivate::QPropertyValueStorage<T>`, the stored value next to the
engine part `priv`. -/
structure QPropertyValueStorage (T : Type) where
  value : T
  priv : QPropertyBase T

/-- One property `d`, the evaluation context (the binding being evaluated right now, if any) and
the trace of calls so far. -/
structure Machine (T : Type) where
  d : QPropertyValueStorage T
  currentBinding : Option Nat
  trace : List (Event T)

/-- The cell invariant of section 3: without a binding the cell is not dirty. -/
def QPropertyBase.invariant {T : Type} (priv : QPropertyBase T) : Prop :=
  priv.binding = none → priv.dirty = false

/-- Number of `notifyObservers` calls in a trace. -/
def notifyCount {T : Type} : List (Event T) → Nat
  | [] => 0
  | Event.notifyObservers _ :: es => notifyCount es + 1
  | _ :: es => notifyCount es

/-- Number of calls of a binding's evaluation function in a trace. -/
def evaluationCount {T : Type} : List (Event T) → Nat
  | [] => 0
  | Event.evaluationFunction _ :: es => evaluationCount es + 1
  | _ :: es => evaluationCount es

/-- Number of owner call-back invocations in a trace. -/
def callbackCount {T : Type} : List (Event T) → Nat
  | [] => 0
  | Event.callback _ :: es => callbackCount es + 1
  | _ :: es => callbackCount es

/-! ## Engine calls (not in the header) -/

/-- Modelled from the spec: `QPropertyBase::hasBinding`, `binding != null`. -/
def QPropertyBase.hasBinding {T : Type} (priv : QPropertyBase T) : Bool :=
  priv.binding.isSome

/-- Modelled from the spec: `QPropertyBase::removeBinding` (4.A write: "if `binding != null`,
drop the binding"; section 3: "direct writes clear `dirty` and drop the binding"). -/
def QPropertyBase.removeBinding {T : Type} (m : Machine T) : Machine T :=
  { m with
    d := { m.d with priv := { m.d.priv with binding := none, dirty := false } }
    trace := m.trace ++ [Event.removeBinding] }

/-- Modelled from the spec: `QPropertyBase::setBinding` (4.A setBinding without the notification,
which the façade issues itself; 4.E "Binding replacement" and "Take / transfer"): returns the
previous binding, attaches the new one, marks the cell dirty when a binding got attached, keeps
the cached value and does not evaluate.  `staticObserver` tells whether the call passed an owner
with its call-back and guard (the five argument form used by `QNotifiedProperty`). -/
def QPropertyBase.setBinding {T : Type} (m : Machine T) (newBinding : QUntypedPropertyBinding T)
    (staticObserver : Bool) : QUntypedPropertyBinding T × Machine T :=
  (m.d.priv.binding,
   { m with
     d := { m.d with priv := { m.d.priv with binding := newBinding, dirty := newBinding.isSome } }
     trace := m.trace ++ [Event.setBinding (newBinding.map (fun b => b.id)) staticObserver] })

/-- Modelled from the spec: `QPropertyBase::evaluateIfDirty` (4.A read and 4.B evaluate).  Nothing
happens on a clean cell.  On a dirty one: a binding that is already evaluating records
`BindingLoop` and leaves the cached value alone; otherwise the evaluation function runs on the
storage, the error is cleared and the cell becomes clean. -/
def QPropertyBase.evaluateIfDirty {T : Type} (m : Machine T) : Machine T :=
  let m1 : Machine T := { m with trace := m.trace ++ [Event.evaluateIfDirty] }
  match m.d.priv.binding with
  | none => m1
  | some b =>
    if m.d.priv.dirty then
      if b.evaluating then
        { m1 with
          d := { m.d with priv := { m.d.priv with
            binding := some { b with error := some QPropertyBindingErrorType.BindingLoop } } } }
      else
        { m1 with
          d := { value := (b.evaluationFunction m.d.value).2
                 priv := { m.d.priv with binding := some { b with error := none }, dirty := false } }
          trace := m1.trace ++ [Event.evaluationFunction b.id] }
    else m1

/-- Modelled from the spec: `QPropertyBase::registerWithCurrentlyEvaluatingBinding` (4.A read):
"if an EvaluationContext binding is active and it is not this cell's own binding, ensure a
dependency Observer exists on this cell linked back to that evaluating binding". -/
def QPropertyBase.registerWithCurrentlyEvaluatingBinding {T : Type} (m : Machine T) : Machine T :=
  let m1 : Machine T := { m with trace := m.trace ++ [Event.registerWithCurrentlyEvaluatingBinding] }
  match m.currentBinding with
  | none => m1
  | some cur =>
    if m.d.priv.binding.map (fun b => b.id) = some cur then m1
    else if QPropertyObserver.ObserverNotifiesBinding cur ∈ m.d.priv.observers then m1
    else
      { m1 with
        d := { m.d with priv := { m.d.priv with
          observers := QPropertyObserver.ObserverNotifiesBinding cur :: m.d.priv.observers } } }

/-- Modelled from the spec: `QPropertyBase::notifyObservers` (4.A): walks the observer list and
dispatches every node once.  The dispatched actions (dirty marks on other cells, user handlers)
are outside the header; the walk is recorded with the list it went through. -/
def QPropertyBase.notifyObservers {T : Type} (m : Machine T) : Machine T :=
  { m with trace := m.trace ++ [Event.notifyObservers m.d.priv.observers] }

/-- Modelled from the spec: `QPropertyValueStorage::getValue`. -/
def QPropertyValueStorage.getValue {T : Type} (m : Machine T) : T :=
  m.d.value

/-- Modelled from the spec: `QPropertyValueStorage::setValueAndReturnTrueIfChanged`, the
compare-and-store of 4.A with its equality policy: with `operator==` a value that compares equal
is not stored and `false` is returned; without it the value is always stored. -/
def QPropertyValueStorage.setValueAndReturnTrueIfChanged {T : Type} (ti : TypeInfo T)
    (m : Machine T) (v : T) : Bool × Machine T :=
  let m1 : Machine T := { m with trace := m.trace ++ [Event.setValueAndReturnTrueIfChanged v] }
  match ti.operator_eq with
  | some eq =>
    if eq v m.d.value then (false, m1)
    else (true, { m1 with d := { m.d with value := v } })
  | none => (true, { m1 with d := { m.d with value := v } })

/-! ## `QProperty<T>` -/

/-- Source `QProperty::value` (lines 221-227). -/
def QProperty.value {T : Type} (m : Machine T) : T × Machine T :=
  let m1 := if QPropertyBase.hasBinding m.d.priv then QPropertyBase.evaluateIfDirty m else m
  let m2 := QPropertyBase.registerWithCurrentlyEvaluatingBinding m1
  (QPropertyValueStorage.getValue m2, m2)

/-- Source `QProperty::notify` (lines 328-331). -/
def QProperty.notify {T : Type} (m : Machine T) : Machine T :=
  QPropertyBase.notifyObservers m

/-- Source `QProperty::setValue(T &&)` (lines 234-239). -/
def QProperty.setValue_rvalue {T : Type} (ti : TypeInfo T) (m : Machine T) (newValue : T) :
    Machine T :=
  let m1 := QPropertyBase.removeBinding m
  let r := QPropertyValueStorage.setValueAndReturnTrueIfChanged ti m1 newValue
  if r.1 then QProperty.notify r.2 else r.2

/-- Source `QProperty::setValue(const T &)` (lines 241-246). -/
def QProperty.setValue {T : Type} (ti : TypeInfo T) (m : Machine T) (newValue : T) : Machine T :=
  let m1 := QPropertyBase.removeBinding m
  let r := QPropertyValueStorage.setValueAndReturnTrueIfChanged ti m1 newValue
  if r.1 then QProperty.notify r.2 else r.2

/-- Source `QProperty::setBinding(const QPropertyBinding<T> &)` (lines 272-277); the overload taking
`QPropertyBinding<T> &&` (lines 279-285) moves the argument into a local and does the same. -/
def QProperty.setBinding {T : Type} (m : Machine T) (newBinding : QUntypedPropertyBinding T) :
    QUntypedPropertyBinding T × Machine T :=
  let r := QPropertyBase.setBinding m newBinding false
  let oldBinding := r.1
  (oldBinding, QProperty.notify r.2)

/-- Source `QProperty::hasBinding` (line 309). -/
def QProperty.hasBinding {T : Type} (m : Machine T) : Bool :=
  QPropertyBase.hasBinding m.d.priv

/-- Source `QProperty::binding` (lines 311-314, through the converting constructor of lines
170-173): the binding that `propertyBase().binding()` reports, the one attached to the cell. -/
def QProperty.binding {T : Type} (m : Machine T) : QUntypedPropertyBinding T :=
  m.d.priv.binding

/-- Source `QProperty::takeBinding` (lines 316-319). -/
def QProperty.takeBinding {T : Type} (m : Machine T) : QUntypedPropertyBinding T × Machine T :=
  QPropertyBase.setBinding m none false

/-! ## `QPropertyBinding<T>` -/

/-- Source `QPropertyBinding<T>::BindingAdaptor<Functor>::operator()` (lines 145-160).  `impl` is the user
function and `f` its identity; the result is the returned flag, the target storage afterwards and
the user calls made. -/
def QPropertyBinding.BindingAdaptor {T : Type} (ti : TypeInfo T) (f : Nat) (impl : Unit → T)
    (dataPtr : T) : (Bool × T) × List (Event T) :=
  let newValue := impl ()
  match ti.operator_eq with
  | some eq =>
    if eq newValue dataPtr then ((false, dataPtr), [Event.functor f])
    else ((true, newValue), [Event.functor f])
  | none => ((true, newValue), [Event.functor f])

/-- Source `QPropertyBinding<T>::QPropertyBinding(Functor &&, location)` (lines 165-168): an untyped
binding of meta type `QMetaType::fromType<T>()` whose evaluation function is the adaptor of `f`.
`id` is the identity of the binding object created. -/
def QPropertyBinding.fromFunctor {T : Type} (ti : TypeInfo T) (id f : Nat) (impl : Unit → T) :
    QUntypedPropertyBinding T :=
  some { id := id
         metaType := ti.qMetaTypeId
         evaluationFunction := fun dataPtr => (QPropertyBinding.BindingAdaptor ti f impl dataPtr).1
         evaluating := false
         error := none }

/-! ## `QNotifiedProperty<T, Callback, ValueGuard>` -/

/-- The template argument `ValueGuard`: `nullptr`, a member function taking the candidate by value
or by const reference, or one taking it by reference, which may rewrite it. -/
inductive ValueGuard (T : Type) where
  | nullptr
  | byValue (guard : T → Bool)
  | byReference (guard : T → Bool × T)

/-- The compile-time configuration of a `QNotifiedProperty`: the shape of `Callback` (it is one
member function, taking either the old value or nothing, see the first static assertion) and the
guard. -/
structure NotifiedConfig (T : Type) where
  CallbackAcceptsOldValue : Bool
  guard : ValueGuard T

/-- Source `QNotifiedProperty::HasValueGuard` (line 359). -/
def NotifiedConfig.HasValueGuard {T : Type} (cfg : NotifiedConfig T) : Bool :=
  match cfg.guard with
  | ValueGuard.nullptr => false
  | _ => true

/-- Source `QNotifiedProperty::ValueGuardModifiesArgument` (line 357): whether the guard can be invoked
with an lvalue of type `T`.  That is so for every guard that `setValue` can call, whether it
takes `T`, `const T &` or `T &`. -/
def NotifiedConfig.ValueGuardModifiesArgument {T : Type} (cfg : NotifiedConfig T) : Bool :=
  match cfg.guard with
  | ValueGuard.nullptr => false
  | _ => true

/-- The call `(owner->*ValueGuard)(newValue)`: the returned flag and `newValue` after the call. -/
def ValueGuard.invoke {T : Type} : ValueGuard T → T → Bool × T
  | ValueGuard.nullptr, newValue => (true, newValue)
  | ValueGuard.byValue guard, newValue => (guard newValue, newValue)
  | ValueGuard.byReference guard, newValue => guard newValue

/-- Source `QNotifiedProperty::value` (lines 397-403). -/
def QNotifiedProperty.value {T : Type} (m : Machine T) : T × Machine T :=
  let m1 := if QPropertyBase.hasBinding m.d.priv then QPropertyBase.evaluateIfDirty m else m
  let m2 := QPropertyBase.registerWithCurrentlyEvaluatingBinding m1
  (QPropertyValueStorage.getValue m2, m2)

/-- Source `QNotifiedProperty::notify` (lines 534-543): the observers first, then the owner call-back,
without argument when `Callback` is invocable without one and with `*oldValue` otherwise. -/
def QNotifiedProperty.notify {T : Type} (cfg : NotifiedConfig T) (m : Machine T)
    (oldValue : Option T) : Machine T :=
  let m1 := QPropertyBase.notifyObservers m
  if !cfg.CallbackAcceptsOldValue then { m1 with trace := m1.trace ++ [Event.callback none] }
  else { m1 with trace := m1.trace ++ [Event.callback oldValue] }

/-- The part of both `QNotifiedProperty::setValue` overloads after the guard (lines 417-425 and
434-443). -/
def QNotifiedProperty.setValue_body {T : Type} (ti : TypeInfo T) (cfg : NotifiedConfig T)
    (m : Machine T) (newValue : T) : Machine T :=
  let m1 :=
    if cfg.CallbackAcceptsOldValue then
      let old := QNotifiedProperty.value m
      let oldValue := old.1
      let r := QPropertyValueStorage.setValueAndReturnTrueIfChanged ti old.2 newValue
      if r.1 then QNotifiedProperty.notify cfg r.2 (some oldValue) else r.2
    else
      let r := QPropertyValueStorage.setValueAndReturnTrueIfChanged ti m newValue
      if r.1 then QNotifiedProperty.notify cfg r.2 none else r.2
  QPropertyBase.removeBinding m1

/-- Source `QNotifiedProperty::setValue(Class *, T / const T &)` (lines 428-444). -/
def QNotifiedProperty.setValue {T : Type} (ti : TypeInfo T) (cfg : NotifiedConfig T)
    (m : Machine T) (newValue : T) : Machine T :=
  if cfg.HasValueGuard then
    let g := cfg.guard.invoke newValue
    if !g.1 then m
    else QNotifiedProperty.setValue_body ti cfg m g.2
  else QNotifiedProperty.setValue_body ti cfg m newValue

/-- Source `QNotifiedProperty::setValue(Class *, S &&)` (lines 410-426), the overload that takes part in
overload resolution only when `ValueGuardModifiesArgument` is false; `none` when it does not. -/
def QNotifiedProperty.setValue_forward {T : Type} (ti : TypeInfo T) (cfg : NotifiedConfig T)
    (m : Machine T) (newValue : T) : Option (Machine T) :=
  if cfg.ValueGuardModifiesArgument then none
  else if cfg.HasValueGuard then
    let g := cfg.guard.invoke newValue
    if !g.1 then some m
    else some (QNotifiedProperty.setValue_body ti cfg m g.2)
  else some (QNotifiedProperty.setValue_body ti cfg m newValue)

/-- Source `QNotifiedProperty::hasBinding` (line 515). -/
def QNotifiedProperty.hasBinding {T : Type} (m : Machine T) : Bool :=
  QPropertyBase.hasBinding m.d.priv

/-- Source `QNotifiedProperty::binding` (lines 517-520). -/
def QNotifiedProperty.binding {T : Type} (m : Machine T) : QUntypedPropertyBinding T :=
  m.d.priv.binding

/-- Source `QNotifiedProperty::takeBinding` (lines 522-525). -/
def QNotifiedProperty.takeBinding {T : Type} (m : Machine T) :
    QUntypedPropertyBinding T × Machine T :=
  QPropertyBase.setBinding m none false

/-! ## `QPropertyAlias<T>` -/

/-- Properties in memory, by address, with the evaluation context and the trace. -/
structure World (T : Type) where
  heap : Nat → QPropertyValueStorage T
  currentBinding : Option Nat
  trace : List (Event T)

/-- The property at address `p`, seen as a machine. -/
def World.load {T : Type} (w : World T) (p : Nat) : Machine T :=
  { d := w.heap p, currentBinding := w.currentBinding, trace := w.trace }

/-- Write back the property at address `p` after a member call on it. -/
def World.store {T : Type} (w : World T) (p : Nat) (m : Machine T) : World T :=
  { heap := Function.update w.heap p m.d, currentBinding := m.currentBinding, trace := m.trace }

/-- The class `QPropertyAlias<T>`: the observer's `aliasedPropertyPtr`, `none` for a null
pointer. -/
structure QPropertyAlias where
  aliasedPropertyPtr : Option Nat
  deriving DecidableEq, Repr

/-- Source `QPropertyObserver::aliasedProperty` (lines 578-582). -/
def QPropertyAlias.aliasedProperty (al : QPropertyAlias) : Option Nat :=
  al.aliasedPropertyPtr

/-- Modelled from the spec: `QPropertyObserver::setSource` (4.C "Insertion: O(1) at head"): the
node is linked in front of the property's observer list. -/
def QPropertyObserver.setSource {T : Type} (m : Machine T) (o : QPropertyObserver) : Machine T :=
  { m with
    d := { m.d with priv := { m.d.priv with observers := o :: m.d.priv.observers } }
    trace := m.trace ++ [Event.setSource o] }

/-- The two declared result types of a `propertyBase()` member that matter to `setSource`:
`QtPrivate::QPropertyBase &` and `const QtPrivate::QPropertyBase &`. -/
inductive PropertyBaseType where
  | QPropertyBase_ref
  | const_QPropertyBase_ref
  deriving DecidableEq, Repr

/-- Source `QProperty::propertyBase` (line 326), its declared result type:
`const QtPrivate::QPropertyBase &`. -/
def QProperty.propertyBase_type : PropertyBaseType :=
  PropertyBaseType.const_QPropertyBase_ref

/-- Source `QNotifiedProperty::propertyBase` (line 532), its declared result type:
`const QtPrivate::QPropertyBase &`. -/
def QNotifiedProperty.propertyBase_type : PropertyBaseType :=
  PropertyBaseType.const_QPropertyBase_ref

/-- Source `QPropertyObserver::setSource(const Property &)` (lines 570-572), its constraint: the
template takes part in overload resolution only when
`decltype(std::declval<Property>().propertyBase())` is exactly `QtPrivate::QPropertyBase &`.  The
only other overload (line 585) is private and takes a `QtPrivate::QPropertyBase`, which a property
is not, so the call `setSource(property)` has a viable overload exactly when this holds. -/
def QPropertyObserver.setSource_viable (t : PropertyBaseType) : Bool :=
  decide (t = PropertyBaseType.QPropertyBase_ref)

/-- The call `setSource(property)` on a property whose `propertyBase()` has result type `t`
(lines 628 and 683): `none` when no overload is viable, so that the call is ill-formed and the
member containing it cannot be instantiated; otherwise the template forwards to the engine, which
links the node. -/
def QPropertyObserver.setSource_property {T : Type} (t : PropertyBaseType) (m : Machine T)
    (o : QPropertyObserver) : Option (Machine T) :=
  if QPropertyObserver.setSource_viable t then some (QPropertyObserver.setSource m o) else none

/-- Source `QPropertyAlias::QPropertyAlias(QProperty<T> *)` (lines 679-684): the observer base keeps
the pointer, and a non-null property gets the alias as an observer through `setSource(*property)`.
The constructor is one function: when that call is ill-formed it cannot be instantiated, for a
null argument either, and the result is `none`. -/
def QPropertyAlias.fromProperty {T : Type} (w : World T) (property : Option Nat) :
    Option (QPropertyAlias × World T) :=
  match property with
  | some p =>
    (QPropertyObserver.setSource_property QProperty.propertyBase_type (w.load p)
        (QPropertyObserver.ObserverNotifiesAlias p)).map
      (fun m => ({ aliasedPropertyPtr := some p }, w.store p m))
  | none =>
    if QPropertyObserver.setSource_viable QProperty.propertyBase_type then
      some ({ aliasedPropertyPtr := none }, w)
    else none

/-- Source `QPropertyAlias::value` (lines 690-695). -/
def QPropertyAlias.value {T : Type} (ti : TypeInfo T) (al : QPropertyAlias) (w : World T) :
    T × World T :=
  match al.aliasedProperty with
  | some p =>
    let r := QProperty.value (w.load p)
    (r.1, w.store p r.2)
  | none => (ti.default, w)

/-- Source `QPropertyAlias::setValue(T &&)` (lines 699-703). -/
def QPropertyAlias.setValue_rvalue {T : Type} (ti : TypeInfo T) (al : QPropertyAlias)
    (w : World T) (newValue : T) : World T :=
  match al.aliasedProperty with
  | some p => w.store p (QProperty.setValue_rvalue ti (w.load p) newValue)
  | none => w

/-- Source `QPropertyAlias::setValue(const T &)` (lines 705-709). -/
def QPropertyAlias.setValue {T : Type} (ti : TypeInfo T) (al : QPropertyAlias) (w : World T)
    (newValue : T) : World T :=
  match al.aliasedProperty with
  | some p => w.store p (QProperty.setValue ti (w.load p) newValue)
  | none => w

/-- Source `QPropertyAlias::isValid` (lines 808-811). -/
def QPropertyAlias.isValid (al : QPropertyAlias) : Bool :=
  al.aliasedProperty.isSome

/-! ## `QPropertyChangeHandler<Functor>`, `onValueChanged` and `subscribe` -/

/-- The class `QPropertyChangeHandler<Functor>`: the stored functor `m_handler` and whether the
observer node has been given a source, that is, sits in a property's observer list. -/
structure QPropertyChangeHandler where
  m_handler : Nat
  linked : Bool
  deriving DecidableEq, Repr

/-- Number of calls of the user functor `f` in a trace. -/
def functorCount {T : Type} (f : Nat) : List (Event T) → Nat
  | [] => 0
  | Event.functor g :: es => if g = f then functorCount f es + 1 else functorCount f es
  | _ :: es => functorCount f es

/-- Source `QPropertyChangeHandler(Functor handler)` (lines 611-618): the handler is kept, no source
is set. -/
def QPropertyChangeHandler.fromFunctor (handler : Nat) : QPropertyChangeHandler :=
  { m_handler := handler, linked := false }

/-- Source `QPropertyChangeHandler(const Property &property, Functor handler)` (lines 620-629): the
handler is kept and `setSource(property)` is to link the node to the property; `t` is the result
type of the property's `propertyBase()`.  The result is `none` when that call is ill-formed. -/
def QPropertyChangeHandler.fromProperty {T : Type} (t : PropertyBaseType) (m : Machine T)
    (handler : Nat) : Option (QPropertyChangeHandler × Machine T) :=
  (QPropertyObserver.setSource_property t m
      (QPropertyObserver.ObserverNotifiesChangeHandler handler)).map
    (fun m2 => ({ m_handler := handler, linked := true }, m2))

/-- Source `QProperty<T>::onValueChanged` (lines 632-640). -/
def QProperty.onValueChanged {T : Type} (m : Machine T) (f : Nat) :
    Option (QPropertyChangeHandler × Machine T) :=
  QPropertyChangeHandler.fromProperty QProperty.propertyBase_type m f

/-- Source `QProperty<T>::subscribe` (lines 642-651): `f();` and then `onValueChanged(f)`. -/
def QProperty.subscribe {T : Type} (m : Machine T) (f : Nat) :
    Option (QPropertyChangeHandler × Machine T) :=
  let m1 : Machine T := { m with trace := m.trace ++ [Event.functor f] }
  QProperty.onValueChanged m1 f

/-- Source `QNotifiedProperty::onValueChanged` (lines 653-661). -/
def QNotifiedProperty.onValueChanged {T : Type} (m : Machine T) (f : Nat) :
    Option (QPropertyChangeHandler × Machine T) :=
  QPropertyChangeHandler.fromProperty QNotifiedProperty.propertyBase_type m f

/-- Source `QNotifiedProperty::subscribe` (lines 663-672). -/
def QNotifiedProperty.subscribe {T : Type} (m : Machine T) (f : Nat) :
    Option (QPropertyChangeHandler × Machine T) :=
  let m1 : Machine T := { m with trace := m.trace ++ [Event.functor f] }
  QNotifiedProperty.onValueChanged m1 f

/-- Source `QPropertyAlias::onValueChanged` (lines 792-798).  The member contains the call
`p->onValueChanged(f)` and is instantiated as a whole, whatever the pointer is at run time. -/
def QPropertyAlias.onValueChanged {T : Type} (al : QPropertyAlias) (w : World T) (f : Nat) :
    Option (QPropertyChangeHandler × World T) :=
  match al.aliasedProperty with
  | some p => (QProperty.onValueChanged (w.load p) f).map (fun r => (r.1, w.store p r.2))
  | none =>
    if QPropertyObserver.setSource_viable QProperty.propertyBase_type then
      some (QPropertyChangeHandler.fromFunctor f, w)
    else none

/-- Source `QPropertyAlias::subscribe` (lines 800-806).  The member contains the call
`p->subscribe(f)` and is instantiated as a whole, whatever the pointer is at run time. -/
def QPropertyAlias.subscribe {T : Type} (al : QPropertyAlias) (w : World T) (f : Nat) :
    Option (QPropertyChangeHandler × World T) :=
  match al.aliasedProperty with
  | some p => (QProperty.subscribe (w.load p) f).map (fun r => (r.1, w.store p r.2))
  | none =>
    if QPropertyObserver.setSource_viable QProperty.propertyBase_type then
      some (QPropertyChangeHandler.fromFunctor f, w)
    else none

/-! ## The compare-and-store inside `QNotifiedProperty::setValue` -/

/-- The machine on which `QNotifiedProperty::setValue` calls `setValueAndReturnTrueIfChanged`:
the one left by `value()` when the call-back takes the old value (lines 418-419, 436-437), the
machine as it was otherwise (lines 422, 440). -/
def QNotifiedProperty.beforeStore {T : Type} (cfg : NotifiedConfig T) (m : Machine T) :
    Machine T :=
  if cfg.CallbackAcceptsOldValue then (QNotifiedProperty.value m).2 else m

/-- The argument `QNotifiedProperty::setValue` hands to `notify`: `&oldValue` with
`oldValue = value()` when the call-back takes the old value, nothing otherwise. -/
def QNotifiedProperty.oldValueArgument {T : Type} (cfg : NotifiedConfig T) (m : Machine T) :
    Option T :=
  if cfg.CallbackAcceptsOldValue then some (QNotifiedProperty.value m).1 else none

/-! ## Notification with its dispatch

The definitions above record a notification as one event, which is what counting calls needs.
What a property holds after a write also depends on the user code the notification reaches:
a change handler or the owner call-back may itself read or write the property (spec 4.E,
scenario 5).  The definitions below run that code. -/

/-- User code reached by a notification: `observer o` is what the dispatch of node `o` does to
the property (for a change handler the functor called at lines 612-615, which may call any member
of the property), `callback old` what the owner call-back of a notified property does. -/
structure UserCode (T : Type) where
  observer : QPropertyObserver → Machine T → Machine T
  callback : Option T → Machine T → Machine T

/-- User code that does not touch the property. -/
def UserCode.inert {T : Type} : UserCode T :=
  { observer := fun _ s => s, callback := fun _ s => s }

/-- Modelled from the spec: `QPropertyBase::notifyObservers` with its dispatch (4.A, 4.E): the
list is walked as it is when the walk starts ("newly added observers during a walk are not
visited in the current walk") and every node is dispatched once, in list order. -/
def QPropertyBase.notifyObservers_dispatching {T : Type} (u : UserCode T) (m : Machine T) :
    Machine T :=
  m.d.priv.observers.foldl (fun s o => u.observer o s) (QPropertyBase.notifyObservers m)

/-- Source `QProperty::notify` (lines 328-331), with the dispatch. -/
def QProperty.notify_dispatching {T : Type} (u : UserCode T) (m : Machine T) : Machine T :=
  QPropertyBase.notifyObservers_dispatching u m

/-- Source `QProperty::setValue(T &&)` (lines 234-239), with the dispatch. -/
def QProperty.setValue_rvalue_dispatching {T : Type} (ti : TypeInfo T) (u : UserCode T)
    (m : Machine T) (newValue : T) : Machine T :=
  let m1 := QPropertyBase.removeBinding m
  let r := QPropertyValueStorage.setValueAndReturnTrueIfChanged ti m1 newValue
  if r.1 then QProperty.notify_dispatching u r.2 else r.2

/-- Source `QProperty::setValue(const T &)` (lines 241-246), with the dispatch. -/
def QProperty.setValue_dispatching {T : Type} (ti : TypeInfo T) (u : UserCode T)
    (m : Machine T) (newValue : T) : Machine T :=
  let m1 := QPropertyBase.removeBinding m
  let r := QPropertyValueStorage.setValueAndReturnTrueIfChanged ti m1 newValue
  if r.1 then QProperty.notify_dispatching u r.2 else r.2

/-- Source `QNotifiedProperty::notify` (lines 534-543), with the dispatch: the observers first, then
the owner call-back. -/
def QNotifiedProperty.notify_dispatching {T : Type} (cfg : NotifiedConfig T) (u : UserCode T)
    (m : Machine T) (oldValue : Option T) : Machine T :=
  let m1 := QPropertyBase.notifyObservers_dispatching u m
  if !cfg.CallbackAcceptsOldValue then
    u.callback none { m1 with trace := m1.trace ++ [Event.callback none] }
  else u.callback oldValue { m1 with trace := m1.trace ++ [Event.callback oldValue] }

/-- The part of both `QNotifiedProperty::setValue` overloads after the guard (lines 417-425 and
434-443), with the dispatch. -/
def QNotifiedProperty.setValue_body_dispatching {T : Type} (ti : TypeInfo T)
    (cfg : NotifiedConfig T) (u : UserCode T) (m : Machine T) (newValue : T) : Machine T :=
  let m1 :=
    if cfg.CallbackAcceptsOldValue then
      let old := QNotifiedProperty.value m
      let oldValue := old.1
      let r := QPropertyValueStorage.setValueAndReturnTrueIfChanged ti old.2 newValue
      if r.1 then QNotifiedProperty.notify_dispatching cfg u r.2 (some oldValue) else r.2
    else
      let r := QPropertyValueStorage.setValueAndReturnTrueIfChanged ti m newValue
      if r.1 then QNotifiedProperty.notify_dispatching cfg u r.2 none else r.2
  QPropertyBase.removeBinding m1

/-- Source `QNotifiedProperty::setValue(Class *, T / const T &)` (lines 428-444), with the
dispatch. -/
def QNotifiedProperty.setValue_dispatching {T : Type} (ti : TypeInfo T) (cfg : NotifiedConfig T)
    (u : UserCode T) (m : Machine T) (newValue : T) : Machine T :=
  if cfg.HasValueGuard then
    let g := cfg.guard.invoke newValue
    if !g.1 then m
    else QNotifiedProperty.setValue_body_dispatching ti cfg u m g.2
  else QNotifiedProperty.setValue_body_dispatching ti cfg u m newValue

/-! ## Concrete instances used to exercise the definitions -/

/-- The value type `int`: it has `operator==`. -/
def intInfo : TypeInfo Int :=
  { operator_eq := some (fun a b => a == b), qMetaTypeId := 2, nullBindingTypeId := 0, default := 0 }

/-- A binding of type `int` computing `40 + 2`. -/
def answerBinding : QPropertyBindingPrivate Int :=
  { id := 1
    metaType := 2
    evaluationFunction := fun dataPtr => (QPropertyBinding.BindingAdaptor intInfo 10 (fun _ => 40 + 2) dataPtr).1
    evaluating := false
    error := none }

/-- A property holding `3`, without binding, observed by one change handler. -/
def plainThree : Machine Int :=
  { d := { value := 3
           priv := { binding := none, dirty := false,
                     observers := [QPropertyObserver.ObserverNotifiesChangeHandler 7] } }
    currentBinding := none
    trace := [] }

/-- A property caching `3` with `answerBinding` attached and dirty. -/
def boundThree : Machine Int :=
  { d := { value := 3
           priv := { binding := some answerBinding, dirty := true,
                     observers := [QPropertyObserver.ObserverNotifiesChangeHandler 7] } }
    currentBinding := none
    trace := [] }

/-- A world whose every address holds the property `plainThree.d`. -/
def worldOfThrees : World Int :=
  { heap := fun _ => plainThree.d, currentBinding := none, trace := [] }

/-- A guard that rejects even values. -/
def oddOnly : NotifiedConfig Int :=
  { CallbackAcceptsOldValue := true, guard := ValueGuard.byValue (fun v => v % 2 != 0) }

/-- A guard that takes the candidate by reference, accepts every value and caps it at `10`. -/
def capAtTen : NotifiedConfig Int :=
  { CallbackAcceptsOldValue := true
    guard := ValueGuard.byReference (fun v => (true, if v > 10 then 10 else v)) }

/-- A property holding `10`, without binding, observed by one change handler. -/
def plainTen : Machine Int :=
  { d := { value := 10
           priv := { binding := none, dirty := false,
                     observers := [QPropertyObserver.ObserverNotifiesChangeHandler 7] } }
    currentBinding := none
    trace := [] }

/-- A value type without `operator==`. -/
def blobInfo : TypeInfo Int :=
  { operator_eq := none, qMetaTypeId := 1024, nullBindingTypeId := 0, default := 0 }

/-- A value type whose `operator==` compares parity only. -/
def parityInfo : TypeInfo Int :=
  { operator_eq := some (fun a b => a % 2 == b % 2), qMetaTypeId := 1025, nullBindingTypeId := 0,
    default := 0 }

/-- Change handlers that write `w` back into the `QProperty` they observe, by `setValue(w)`; that
write notifies in turn, `n` bounds the nesting. -/
def writesBack (w : Int) : Nat → UserCode Int
  | 0 => UserCode.inert
  | n + 1 =>
    { observer := fun o s =>
        match o with
        | QPropertyObserver.ObserverNotifiesChangeHandler f =>
          QProperty.setValue_dispatching intInfo (writesBack w n)
            { s with trace := s.trace ++ [Event.functor f] } w
        | _ => s
      callback := fun _ s => s }

/-- Change handlers that read the `QProperty` they observe, by `value()`. -/
def readsValue : UserCode Int :=
  { observer := fun o s =>
      match o with
      | QPropertyObserver.ObserverNotifiesChangeHandler f =>
        (QProperty.value { s with trace := s.trace ++ [Event.functor f] }).2
      | _ => s
    callback := fun _ s => s }

/-- A by-reference guard capping at `10`, with a call-back that takes no argument. -/
def capAtTenPlain : NotifiedConfig Int :=
  { CallbackAcceptsOldValue := false
    guard := ValueGuard.byReference (fun v => (true, if v > 10 then 10 else v)) }

/-! ## Auxiliary facts -/

theorem notifyCount_append {T : Type} (xs ys : List (Event T)) :
    notifyCount (xs ++ ys) = notifyCount xs + notifyCount ys := by
  induction xs with
  | nil => simp [notifyCount]
  | cons x xs ih =>
    cases x <;> simp [notifyCount, ih]
    omega

theorem evaluationCount_append {T : Type} (xs ys : List (Event T)) :
    evaluationCount (xs ++ ys) = evaluationCount xs + evaluationCount ys := by
  induction xs with
  | nil => simp [evaluationCount]
  | cons x xs ih =>
    cases x <;> simp [evaluationCount, ih]
    omega

theorem callbackCount_append {T : Type} (xs ys : List (Event T)) :
    callbackCount (xs ++ ys) = callbackCount xs + callbackCount ys := by
  induction xs with
  | nil => simp [callbackCount]
  | cons x xs ih =>
    cases x <;> simp [callbackCount, ih]
    omega

/-- Both `QProperty::setValue` overloads have the same body. -/
theorem QProperty.setValue_rvalue_eq {T : Type} (ti : TypeInfo T) (m : Machine T) (v : T) :
    QProperty.setValue_rvalue ti m v = QProperty.setValue ti m v := rfl

/-- Dropping the binding leaves the stored value alone. -/
theorem QPropertyBase.removeBinding_value {T : Type} (m : Machine T) :
    (QPropertyBase.removeBinding m).d.value = m.d.value := rfl

/-- The trace of `QProperty::setValue` when `T` has `operator==`. -/
theorem QProperty.setValue_trace_eq {T : Type} (ti : TypeInfo T) (eq : T → T → Bool)
    (heq : ti.operator_eq = some eq) (m : Machine T) (v : T) :
    (QProperty.setValue ti m v).trace =
      m.trace ++ [Event.removeBinding, Event.setValueAndReturnTrueIfChanged v] ++
        (if eq v m.d.value then [] else [Event.notifyObservers m.d.priv.observers]) := by
  by_cases h : eq v m.d.value = true <;>
    simp [QProperty.setValue, QPropertyValueStorage.setValueAndReturnTrueIfChanged, heq,
      QPropertyBase.removeBinding, QProperty.notify, QPropertyBase.notifyObservers, h]

/-- The property after `QProperty::setValue`, whatever the equality of `T`. -/
theorem QProperty.setValue_d {T : Type} (ti : TypeInfo T) (m : Machine T) (v : T) :
    (QProperty.setValue ti m v).d.priv = { m.d.priv with binding := none, dirty := false } ∧
    ((QProperty.setValue ti m v).d.value = v ∨
      ∃ eq, ti.operator_eq = some eq ∧ eq v m.d.value = true ∧
        (QProperty.setValue ti m v).d.value = m.d.value) := by
  cases heq : ti.operator_eq with
  | none =>
    simp [QProperty.setValue, QPropertyValueStorage.setValueAndReturnTrueIfChanged, heq,
      QPropertyBase.removeBinding, QProperty.notify, QPropertyBase.notifyObservers]
  | some eq =>
    by_cases h : eq v m.d.value = true <;>
      simp [QProperty.setValue, QPropertyValueStorage.setValueAndReturnTrueIfChanged, heq,
        QPropertyBase.removeBinding, QProperty.notify, QPropertyBase.notifyObservers, h]

/-- Reading a property without binding returns the stored value and evaluates nothing. -/
theorem QProperty.value_of_no_binding {T : Type} (m : Machine T)
    (h : m.d.priv.binding = none) :
    (QProperty.value m).1 = m.d.value ∧ (QProperty.value m).2.d.value = m.d.value ∧
    (QProperty.value m).2.trace = m.trace ++ [Event.registerWithCurrentlyEvaluatingBinding] := by
  cases hc : m.currentBinding with
  | none =>
    simp [QProperty.value, QPropertyBase.hasBinding, h, QPropertyValueStorage.getValue,
      QPropertyBase.registerWithCurrentlyEvaluatingBinding, hc]
  | some cur =>
    by_cases ho : QPropertyObserver.ObserverNotifiesBinding cur ∈ m.d.priv.observers <;>
      simp [QProperty.value, QPropertyBase.hasBinding, h, QPropertyValueStorage.getValue,
        QPropertyBase.registerWithCurrentlyEvaluatingBinding, hc, ho]

/-- The registration with the evaluating binding touches the observer list only. -/
theorem QPropertyBase.registerWithCurrentlyEvaluatingBinding_frame {T : Type} (m : Machine T) :
    (QPropertyBase.registerWithCurrentlyEvaluatingBinding m).d.value = m.d.value ∧
    (QPropertyBase.registerWithCurrentlyEvaluatingBinding m).d.priv.binding = m.d.priv.binding ∧
    (QPropertyBase.registerWithCurrentlyEvaluatingBinding m).d.priv.dirty = m.d.priv.dirty ∧
    (QPropertyBase.registerWithCurrentlyEvaluatingBinding m).currentBinding = m.currentBinding ∧
    (QPropertyBase.registerWithCurrentlyEvaluatingBinding m).trace
      = m.trace ++ [Event.registerWithCurrentlyEvaluatingBinding] := by
  unfold QPropertyBase.registerWithCurrentlyEvaluatingBinding
  cases m.currentBinding with
  | none => simp
  | some cur =>
    by_cases h1 : Option.map (fun b => b.id) m.d.priv.binding = some cur
    · simp [h1]
    · by_cases h2 : QPropertyObserver.ObserverNotifiesBinding cur ∈ m.d.priv.observers <;>
        simp [h1, h2]

/-- What `evaluateIfDirty` does on a property with binding `b`. -/
theorem QPropertyBase.evaluateIfDirty_of_binding {T : Type} (m : Machine T)
    (b : QPropertyBindingPrivate T) (hb : m.d.priv.binding = some b) :
    (m.d.priv.dirty = true ∧ b.evaluating = false ∧
      (QPropertyBase.evaluateIfDirty m).d.value = (b.evaluationFunction m.d.value).2 ∧
      (QPropertyBase.evaluateIfDirty m).d.priv.dirty = false ∧
      (QPropertyBase.evaluateIfDirty m).d.priv.binding = some { b with error := none } ∧
      (QPropertyBase.evaluateIfDirty m).trace
        = m.trace ++ [Event.evaluateIfDirty, Event.evaluationFunction b.id]) ∨
    ((m.d.priv.dirty = false ∨ b.evaluating = true) ∧
      (QPropertyBase.evaluateIfDirty m).d.value = m.d.value ∧
      (QPropertyBase.evaluateIfDirty m).d.priv.dirty = m.d.priv.dirty ∧
      (∃ b2, (QPropertyBase.evaluateIfDirty m).d.priv.binding = some b2 ∧
        b2.evaluating = b.evaluating ∧ b2.id = b.id) ∧
      (QPropertyBase.evaluateIfDirty m).trace = m.trace ++ [Event.evaluateIfDirty]) := by
  unfold QPropertyBase.evaluateIfDirty
  cases hd : m.d.priv.dirty <;> cases he : b.evaluating <;> simp [hb, hd, he]

/-- Reading a property with a binding: evaluate if dirty, register, return the storage. -/
theorem QProperty.value_of_binding {T : Type} (m : Machine T) (b : QPropertyBindingPrivate T)
    (hb : m.d.priv.binding = some b) :
    QProperty.value m
      = ((QPropertyBase.registerWithCurrentlyEvaluatingBinding
            (QPropertyBase.evaluateIfDirty m)).d.value,
         QPropertyBase.registerWithCurrentlyEvaluatingBinding
            (QPropertyBase.evaluateIfDirty m)) := by
  simp [QProperty.value, QPropertyBase.hasBinding, hb, QPropertyValueStorage.getValue]

/-- A read that cannot run the binding function (clean cell, or binding already evaluating)
returns the stored value and adds no call of a binding function to the trace. -/
theorem QProperty.value_of_settled {T : Type} (m : Machine T) (b : QPropertyBindingPrivate T)
    (hb : m.d.priv.binding = some b) (hs : m.d.priv.dirty = false ∨ b.evaluating = true) :
    (QProperty.value m).1 = m.d.value ∧
    evaluationCount (QProperty.value m).2.trace = evaluationCount m.trace ∧
    (QProperty.value m).2.d.priv.dirty = m.d.priv.dirty ∧
    ∃ b2, (QProperty.value m).2.d.priv.binding = some b2 ∧ b2.evaluating = b.evaluating := by
  have hreg := QPropertyBase.registerWithCurrentlyEvaluatingBinding_frame
    (QPropertyBase.evaluateIfDirty m)
  rw [QProperty.value_of_binding m b hb]
  rcases QPropertyBase.evaluateIfDirty_of_binding m b hb with h1 | h2
  · rcases hs with hs | hs
    · rw [h1.1] at hs; cases hs
    · rw [h1.2.1] at hs; cases hs
  · obtain ⟨b2, hb2, hev, _⟩ := h2.2.2.2.1
    refine ⟨by simp only [hreg.1, h2.2.1], ?_, by simp only [hreg.2.2.1, h2.2.2.1],
      b2, by simp only [hreg.2.1, hb2], hev⟩
    simp [hreg.2.2.2.2, h2.2.2.2.2, evaluationCount_append, evaluationCount]

/-- Loading the property just stored gives it back. -/
theorem World.load_store {T : Type} (w : World T) (p : Nat) (m : Machine T) :
    (w.store p m).load p = m := by
  simp [World.load, World.store]

/-! ## The claims -/

/-- C1: for a value type with `operator==`, `QProperty::setValue(v)` calls `notifyObservers`
exactly once when `v` differs from the value held in storage at the time of the compare-and-store
(that is, after the binding was dropped) and not at all when `v` equals it; the `const T &` and
the `T &&` overload behave alike. -/
theorem QProperty.setValue_notifies_once_iff_changed {T : Type} (ti : TypeInfo T)
    (eq : T → T → Bool) (heq : ti.operator_eq = some eq) (m : Machine T) (v : T) :
    (eq v (QPropertyBase.removeBinding m).d.value = false →
      notifyCount (QProperty.setValue ti m v).trace = notifyCount m.trace + 1 ∧
      notifyCount (QProperty.setValue_rvalue ti m v).trace = notifyCount m.trace + 1) ∧
    (eq v (QPropertyBase.removeBinding m).d.value = true →
      notifyCount (QProperty.setValue ti m v).trace = notifyCount m.trace ∧
      notifyCount (QProperty.setValue_rvalue ti m v).trace = notifyCount m.trace) := by
  rw [QProperty.setValue_rvalue_eq, QPropertyBase.removeBinding_value,
    QProperty.setValue_trace_eq ti eq heq]
  constructor <;> intro h <;> simp [h, notifyCount_append, notifyCount]

/-- Witness of C1: on the property holding `3`, writing `7` notifies once and writing `3` does
not notify. -/
theorem QProperty.setValue_notifies_once_iff_changed_witness :
    intInfo.operator_eq = some (fun a b => a == b) ∧
    notifyCount (QProperty.setValue intInfo plainThree 7).trace = 1 ∧
    notifyCount (QProperty.setValue_rvalue intInfo plainThree 7).trace = 1 ∧
    notifyCount (QProperty.setValue intInfo plainThree 3).trace = 0 ∧
    notifyCount (QProperty.setValue_rvalue intInfo plainThree 3).trace = 0 :=
  ⟨rfl,
   ((QProperty.setValue_notifies_once_iff_changed intInfo _ rfl plainThree 7).1 (by decide)).1,
   ((QProperty.setValue_notifies_once_iff_changed intInfo _ rfl plainThree 7).1 (by decide)).2,
   ((QProperty.setValue_notifies_once_iff_changed intInfo _ rfl plainThree 3).2 (by decide)).1,
   ((QProperty.setValue_notifies_once_iff_changed intInfo _ rfl plainThree 3).2 (by decide)).2⟩

/-- C5: `takeBinding()` returns the attached binding and leaves the property without one; the
stored value is the one cached before the call, the only engine call is the `setBinding` with a
null binding (no evaluation, no store, no `notifyObservers`).  On a property without binding (a
cell that, by its invariant, is clean) it returns a null binding and the property is unchanged.
`QNotifiedProperty::takeBinding` is the same function. -/
theorem QProperty.takeBinding_detaches_and_keeps_value {T : Type} (m : Machine T) :
    (QProperty.takeBinding m).1 = QProperty.binding m ∧
    QProperty.hasBinding (QProperty.takeBinding m).2 = false ∧
    (QProperty.takeBinding m).2.d.value = m.d.value ∧
    (QProperty.takeBinding m).2.d.priv.observers = m.d.priv.observers ∧
    (QProperty.takeBinding m).2.trace = m.trace ++ [Event.setBinding none false] ∧
    notifyCount (QProperty.takeBinding m).2.trace = notifyCount m.trace ∧
    evaluationCount (QProperty.takeBinding m).2.trace = evaluationCount m.trace ∧
    (QProperty.hasBinding m = false → QPropertyBase.invariant m.d.priv →
      (QProperty.takeBinding m).1 = none ∧ (QProperty.takeBinding m).2.d = m.d) ∧
    QNotifiedProperty.takeBinding m = QProperty.takeBinding m := by
  refine ⟨rfl, rfl, rfl, rfl, rfl, ?_, ?_, ?_, rfl⟩
  · simp [QProperty.takeBinding, QPropertyBase.setBinding, notifyCount_append, notifyCount]
  · simp [QProperty.takeBinding, QPropertyBase.setBinding, evaluationCount_append,
      evaluationCount]
  · intro hb hinv
    have hnone : m.d.priv.binding = none := by
      simpa [QProperty.hasBinding, QPropertyBase.hasBinding] using hb
    have hclean : m.d.priv.dirty = false := hinv hnone
    refine ⟨hnone, ?_⟩
    obtain ⟨d, cur, tr⟩ := m
    obtain ⟨value, priv⟩ := d
    obtain ⟨binding, dirty, observers⟩ := priv
    simp only at hnone hclean
    subst hnone hclean
    rfl

/-- Witness of C5: taking the binding of the bound property returns it and keeps the cached `3`;
taking from the property without binding gives null and changes nothing. -/
theorem QProperty.takeBinding_detaches_and_keeps_value_witness :
    (QProperty.takeBinding boundThree).1 = some answerBinding ∧
    (QProperty.takeBinding boundThree).2.d.value = 3 ∧
    QProperty.hasBinding plainThree = false ∧
    QPropertyBase.invariant plainThree.d.priv ∧
    (QProperty.takeBinding plainThree).1 = none ∧
    (QProperty.takeBinding plainThree).2.d = plainThree.d :=
  ⟨(QProperty.takeBinding_detaches_and_keeps_value boundThree).1,
   (QProperty.takeBinding_detaches_and_keeps_value boundThree).2.2.1,
   rfl,
   fun _ => rfl,
   ((QProperty.takeBinding_detaches_and_keeps_value plainThree).2.2.2.2.2.2.2.1 rfl
      (fun _ => rfl)).1,
   ((QProperty.takeBinding_detaches_and_keeps_value plainThree).2.2.2.2.2.2.2.1 rfl
      (fun _ => rfl)).2⟩

/-- C7: `value()` of `QProperty` and of `QNotifiedProperty` first evaluates if dirty, and only
when the property has a binding, then registers the property with the binding being evaluated,
then returns the value in storage.  Without binding it returns the stored value and leaves it as
it was, and a second `value()` right after the first returns the same value, without running a
binding function. -/
theorem QProperty.value_evaluates_registers_returns {T : Type} (m : Machine T) :
    (QProperty.hasBinding m = false →
      (QProperty.value m).2.trace = m.trace ++ [Event.registerWithCurrentlyEvaluatingBinding] ∧
      (QProperty.value m).1 = m.d.value ∧
      (QProperty.value m).2.d.value = m.d.value) ∧
    (QProperty.hasBinding m = true →
      (QProperty.value m).1 = (QPropertyBase.evaluateIfDirty m).d.value ∧
      ∃ evs, (QProperty.value m).2.trace
          = m.trace ++ Event.evaluateIfDirty :: evs ++
              [Event.registerWithCurrentlyEvaluatingBinding] ∧
        (evs = [] ∨ ∃ b, QProperty.binding m = some b ∧ evs = [Event.evaluationFunction b.id])) ∧
    (QProperty.value m).1 = (QProperty.value m).2.d.value ∧
    (QProperty.value (QProperty.value m).2).1 = (QProperty.value m).1 ∧
    evaluationCount (QProperty.value (QProperty.value m).2).2.trace
      = evaluationCount (QProperty.value m).2.trace ∧
    QNotifiedProperty.value m = QProperty.value m := by
  have hreg := @QPropertyBase.registerWithCurrentlyEvaluatingBinding_frame T
  refine ⟨?_, ?_, rfl, ?_, ?_, rfl⟩
  · intro h
    have hn : m.d.priv.binding = none := by
      simpa [QProperty.hasBinding, QPropertyBase.hasBinding] using h
    have := QProperty.value_of_no_binding m hn
    exact ⟨this.2.2, this.1, this.2.1⟩
  · intro h
    obtain ⟨b, hb⟩ : ∃ b, m.d.priv.binding = some b := by
      cases hbm : m.d.priv.binding with
      | none => simp [QProperty.hasBinding, QPropertyBase.hasBinding, hbm] at h
      | some b => exact ⟨b, rfl⟩
    have hv : QProperty.value m
        = ((QPropertyBase.registerWithCurrentlyEvaluatingBinding
              (QPropertyBase.evaluateIfDirty m)).d.value,
           QPropertyBase.registerWithCurrentlyEvaluatingBinding
              (QPropertyBase.evaluateIfDirty m)) := by
      simp [QProperty.value, QPropertyBase.hasBinding, hb, QPropertyValueStorage.getValue]
    rw [hv]
    refine ⟨(hreg _).1, ?_⟩
    rcases QPropertyBase.evaluateIfDirty_of_binding m b hb with h1 | h2
    · exact ⟨[Event.evaluationFunction b.id], by simp [(hreg _).2.2.2.2, h1.2.2.2.2.2],
        Or.inr ⟨b, hb, rfl⟩⟩
    · exact ⟨[], by simp [(hreg _).2.2.2.2, h2.2.2.2.2], Or.inl rfl⟩
  all_goals
    cases hbm : m.d.priv.binding with
    | none =>
      have h1 := QProperty.value_of_no_binding m hbm
      have hn : (QProperty.value m).2.d.priv.binding = none := by
        simp only [QProperty.value, QPropertyBase.hasBinding, hbm, Option.isSome_none,
          Bool.false_eq_true, if_false, (hreg m).2.1]
      have h2 := QProperty.value_of_no_binding (QProperty.value m).2 hn
      first
        | rw [h2.1, h1.2.1, h1.1]
        | simp [h2.2.2, evaluationCount_append, evaluationCount]
    | some b =>
      have hv := QProperty.value_of_binding m b hbm
      have hr := hreg (QPropertyBase.evaluateIfDirty m)
      rcases QPropertyBase.evaluateIfDirty_of_binding m b hbm with h1 | h2
      · have hb2 : (QProperty.value m).2.d.priv.binding = some { b with error := none } := by
          rw [hv]; simp only [hr.2.1, h1.2.2.2.2.1]
        have hd2 : (QProperty.value m).2.d.priv.dirty = false := by
          rw [hv]; simp only [hr.2.2.1, h1.2.2.2.1]
        have h3 := QProperty.value_of_settled (QProperty.value m).2 _ hb2 (Or.inl hd2)
        first
          | exact h3.1
          | exact h3.2.1
      · obtain ⟨b2, hb2, hev, _⟩ := h2.2.2.2.1
        have hb3 : (QProperty.value m).2.d.priv.binding = some b2 := by
          rw [hv]; simp only [hr.2.1, hb2]
        have hd3 : (QProperty.value m).2.d.priv.dirty = m.d.priv.dirty := by
          rw [hv]; simp only [hr.2.2.1, h2.2.2.1]
        have hs : (QProperty.value m).2.d.priv.dirty = false ∨ b2.evaluating = true := by
          rw [hd3, hev]; exact h2.1
        have h3 := QProperty.value_of_settled (QProperty.value m).2 b2 hb3 hs
        first
          | exact h3.1
          | exact h3.2.1

/-- Witness of C7: the property holding `3` without binding reads `3`; the property with the dirty
binding reads what the evaluation left in storage, `42`, and reads it again the second time. -/
theorem QProperty.value_evaluates_registers_returns_witness :
    QProperty.hasBinding plainThree = false ∧
    (QProperty.value plainThree).1 = plainThree.d.value ∧
    QProperty.hasBinding boundThree = true ∧
    (QProperty.value boundThree).1 = (QPropertyBase.evaluateIfDirty boundThree).d.value ∧
    (QPropertyBase.evaluateIfDirty boundThree).d.value = 42 ∧
    (QProperty.value (QProperty.value boundThree).2).1 = (QProperty.value boundThree).1 :=
  ⟨rfl,
   ((QProperty.value_evaluates_registers_returns plainThree).1 rfl).2.1,
   rfl,
   ((QProperty.value_evaluates_registers_returns boundThree).2.1 rfl).1,
   by decide,
   (QProperty.value_evaluates_registers_returns boundThree).2.2.2.1⟩

/-- C10: when the value guard of a `QNotifiedProperty` returns false for the candidate value,
`setValue(owner, v)` returns at once: the machine is the one before the call, so the stored value
is unchanged, an attached binding stays attached, `notifyObservers` is not called and the owner
call-back is not invoked.  This holds for the overload taking `T` / `const T &` and for the
forwarding overload where it exists. -/
theorem QNotifiedProperty.setValue_rejected_by_guard {T : Type} (ti : TypeInfo T)
    (cfg : NotifiedConfig T) (m : Machine T) (v : T)
    (hreject : (cfg.guard.invoke v).1 = false) :
    QNotifiedProperty.setValue ti cfg m v = m ∧
    (∀ m2, QNotifiedProperty.setValue_forward ti cfg m v = some m2 → m2 = m) ∧
    (QNotifiedProperty.setValue ti cfg m v).d.value = m.d.value ∧
    QNotifiedProperty.binding (QNotifiedProperty.setValue ti cfg m v)
      = QNotifiedProperty.binding m ∧
    notifyCount (QNotifiedProperty.setValue ti cfg m v).trace = notifyCount m.trace ∧
    callbackCount (QNotifiedProperty.setValue ti cfg m v).trace = callbackCount m.trace := by
  have hguard : cfg.HasValueGuard = true := by
    cases hg : cfg.guard with
    | nullptr => simp [hg, ValueGuard.invoke] at hreject
    | byValue g => simp [NotifiedConfig.HasValueGuard, hg]
    | byReference g => simp [NotifiedConfig.HasValueGuard, hg]
  have hset : QNotifiedProperty.setValue ti cfg m v = m := by
    simp [QNotifiedProperty.setValue, hguard, hreject]
  refine ⟨hset, ?_, by rw [hset], by rw [hset], by rw [hset], by rw [hset]⟩
  intro m2 h
  cases hmod : cfg.ValueGuardModifiesArgument <;>
    simp [QNotifiedProperty.setValue_forward, hmod, hguard, hreject] at h
  exact h.symm

/-- Witness of C10: the guard rejects even values; writing `4` to the bound property is refused,
nothing changes and no call-back is made. -/
theorem QNotifiedProperty.setValue_rejected_by_guard_witness :
    (oddOnly.guard.invoke 4).1 = false ∧
    QNotifiedProperty.setValue intInfo oddOnly boundThree 4 = boundThree ∧
    callbackCount (QNotifiedProperty.setValue intInfo oddOnly boundThree 4).trace = 0 :=
  ⟨by decide,
   (QNotifiedProperty.setValue_rejected_by_guard intInfo oddOnly boundThree 4 (by decide)).1,
   (QNotifiedProperty.setValue_rejected_by_guard intInfo oddOnly boundThree 4
      (by decide)).2.2.2.2.2⟩

/-! ## Auxiliary facts about notified properties -/

theorem functorCount_append {T : Type} (f : Nat) (xs ys : List (Event T)) :
    functorCount f (xs ++ ys) = functorCount f xs + functorCount f ys := by
  induction xs with
  | nil => simp [functorCount]
  | cons x xs ih =>
    cases x <;> simp [functorCount, ih]
    split <;> omega

/-- The two façades read alike. -/
theorem QNotifiedProperty.value_eq {T : Type} (m : Machine T) :
    QNotifiedProperty.value m = QProperty.value m := rfl

/-- A read adds neither a notification nor an owner call-back to the trace, and it returns what
it leaves in storage. -/
theorem QProperty.value_adds_quiet_events {T : Type} (m : Machine T) :
    (∃ evs, (QProperty.value m).2.trace = m.trace ++ evs ∧ callbackCount evs = 0 ∧
      notifyCount evs = 0) ∧
    (QProperty.value m).1 = (QProperty.value m).2.d.value := by
  refine ⟨?_, rfl⟩
  cases hb : m.d.priv.binding with
  | none =>
    exact ⟨_, (QProperty.value_of_no_binding m hb).2.2, by simp [callbackCount],
      by simp [notifyCount]⟩
  | some b =>
    have hr := QPropertyBase.registerWithCurrentlyEvaluatingBinding_frame
      (QPropertyBase.evaluateIfDirty m)
    rw [QProperty.value_of_binding m b hb]
    rcases QPropertyBase.evaluateIfDirty_of_binding m b hb with h1 | h2
    · exact ⟨[Event.evaluateIfDirty, Event.evaluationFunction b.id,
          Event.registerWithCurrentlyEvaluatingBinding],
        by simp [hr.2.2.2.2, h1.2.2.2.2.2], by simp [callbackCount], by simp [notifyCount]⟩
    · exact ⟨[Event.evaluateIfDirty, Event.registerWithCurrentlyEvaluatingBinding],
        by simp [hr.2.2.2.2, h2.2.2.2.2], by simp [callbackCount], by simp [notifyCount]⟩

/-- The body of `QNotifiedProperty::setValue`, written over the machine it stores into. -/
theorem QNotifiedProperty.setValue_body_unfold {T : Type} (ti : TypeInfo T)
    (cfg : NotifiedConfig T) (m : Machine T) (nv : T) :
    QNotifiedProperty.setValue_body ti cfg m nv
      = QPropertyBase.removeBinding
          (if (QPropertyValueStorage.setValueAndReturnTrueIfChanged ti
                (QNotifiedProperty.beforeStore cfg m) nv).1
           then QNotifiedProperty.notify cfg
                  (QPropertyValueStorage.setValueAndReturnTrueIfChanged ti
                    (QNotifiedProperty.beforeStore cfg m) nv).2
                  (QNotifiedProperty.oldValueArgument cfg m)
           else (QPropertyValueStorage.setValueAndReturnTrueIfChanged ti
                  (QNotifiedProperty.beforeStore cfg m) nv).2) := by
  cases hc : cfg.CallbackAcceptsOldValue <;>
    simp [QNotifiedProperty.setValue_body, QNotifiedProperty.beforeStore,
      QNotifiedProperty.oldValueArgument, hc]

/-- The trace of the body of `QNotifiedProperty::setValue` when `T` has `operator==`. -/
theorem QNotifiedProperty.setValue_body_trace_eq {T : Type} (ti : TypeInfo T)
    (cfg : NotifiedConfig T) (eq : T → T → Bool) (heq : ti.operator_eq = some eq)
    (m : Machine T) (nv : T) :
    (QNotifiedProperty.setValue_body ti cfg m nv).trace
      = (QNotifiedProperty.beforeStore cfg m).trace ++
          Event.setValueAndReturnTrueIfChanged nv ::
            ((if eq nv (QNotifiedProperty.beforeStore cfg m).d.value then []
              else [Event.notifyObservers (QNotifiedProperty.beforeStore cfg m).d.priv.observers,
                    Event.callback (QNotifiedProperty.oldValueArgument cfg m)]) ++
             [Event.removeBinding]) := by
  rw [QNotifiedProperty.setValue_body_unfold]
  by_cases h : eq nv (QNotifiedProperty.beforeStore cfg m).d.value = true
  · simp [QPropertyValueStorage.setValueAndReturnTrueIfChanged, heq, h,
      QPropertyBase.removeBinding]
  · cases hc : cfg.CallbackAcceptsOldValue <;>
      simp [QPropertyValueStorage.setValueAndReturnTrueIfChanged, heq, h,
        QPropertyBase.removeBinding, QNotifiedProperty.notify, QPropertyBase.notifyObservers,
        QNotifiedProperty.oldValueArgument, hc]

/-- The property after the body of `QNotifiedProperty::setValue`, whatever the equality of `T`. -/
theorem QNotifiedProperty.setValue_body_d {T : Type} (ti : TypeInfo T) (cfg : NotifiedConfig T)
    (m : Machine T) (nv : T) :
    (QNotifiedProperty.setValue_body ti cfg m nv).d.priv.binding = none ∧
    ((QNotifiedProperty.setValue_body ti cfg m nv).d.value = nv ∨
      ∃ eq, ti.operator_eq = some eq ∧
        eq nv (QNotifiedProperty.beforeStore cfg m).d.value = true ∧
        (QNotifiedProperty.setValue_body ti cfg m nv).d.value
          = (QNotifiedProperty.beforeStore cfg m).d.value) := by
  rw [QNotifiedProperty.setValue_body_unfold]
  cases heq : ti.operator_eq with
  | none =>
    cases hc : cfg.CallbackAcceptsOldValue <;>
      simp [QPropertyValueStorage.setValueAndReturnTrueIfChanged, heq,
        QPropertyBase.removeBinding, QNotifiedProperty.notify, QPropertyBase.notifyObservers, hc]
  | some eq =>
    by_cases h : eq nv (QNotifiedProperty.beforeStore cfg m).d.value = true
    · simp [QPropertyValueStorage.setValueAndReturnTrueIfChanged, heq, h,
        QPropertyBase.removeBinding]
    · cases hc : cfg.CallbackAcceptsOldValue <;>
        simp [QPropertyValueStorage.setValueAndReturnTrueIfChanged, heq, h,
          QPropertyBase.removeBinding, QNotifiedProperty.notify, QPropertyBase.notifyObservers,
          hc]

/-- A write the guard accepts (or without guard) runs the body on the candidate the guard left. -/
theorem QNotifiedProperty.setValue_of_accept {T : Type} (ti : TypeInfo T)
    (cfg : NotifiedConfig T) (m : Machine T) (v : T)
    (haccept : (cfg.guard.invoke v).1 = true) :
    QNotifiedProperty.setValue ti cfg m v
      = QNotifiedProperty.setValue_body ti cfg m (cfg.guard.invoke v).2 := by
  cases hg : cfg.guard with
  | nullptr => simp [QNotifiedProperty.setValue, NotifiedConfig.HasValueGuard, hg, ValueGuard.invoke]
  | byValue g =>
    rw [hg] at haccept
    simp [QNotifiedProperty.setValue, NotifiedConfig.HasValueGuard, hg, haccept]
  | byReference g =>
    rw [hg] at haccept
    simp [QNotifiedProperty.setValue, NotifiedConfig.HasValueGuard, hg, haccept]

/-- Up to the compare-and-store, `QNotifiedProperty::setValue` has notified nobody. -/
theorem QNotifiedProperty.beforeStore_quiet {T : Type} (cfg : NotifiedConfig T) (m : Machine T) :
    callbackCount (QNotifiedProperty.beforeStore cfg m).trace = callbackCount m.trace ∧
    notifyCount (QNotifiedProperty.beforeStore cfg m).trace = notifyCount m.trace := by
  cases hc : cfg.CallbackAcceptsOldValue with
  | false => simp [QNotifiedProperty.beforeStore, hc]
  | true =>
    obtain ⟨⟨evs, htr, hcb, hnt⟩, _⟩ := QProperty.value_adds_quiet_events m
    simp [QNotifiedProperty.beforeStore, hc, QNotifiedProperty.value_eq, htr,
      callbackCount_append, notifyCount_append, hcb, hnt]

/-! ## The claims about notified properties, change handlers and the binding adaptor -/

/-- C11, counterexample: the guard takes the candidate by reference, accepts every value and caps
it at `10`; the property stores `10`, has no binding, and its call-back takes the old value.  The
write of `11` is accepted and `11` differs from the stored `10`, yet the owner call-back is not
invoked, because the candidate that reaches the compare-and-store is `10`. -/
theorem QNotifiedProperty.setValue_callback_follows_rewritten_candidate :
    capAtTen.CallbackAcceptsOldValue = true ∧
    (capAtTen.guard.invoke 11).1 = true ∧
    plainTen.d.value = 10 ∧
    (QNotifiedProperty.value plainTen).1 = 10 ∧
    (∃ eq, intInfo.operator_eq = some eq ∧ eq 11 plainTen.d.value = false) ∧
    callbackCount plainTen.trace = 0 ∧
    ¬ (callbackCount (QNotifiedProperty.setValue intInfo capAtTen plainTen 11).trace
        = callbackCount plainTen.trace + 1) ∧
    callbackCount (QNotifiedProperty.setValue intInfo capAtTen plainTen 11).trace = 0 := by
  refine ⟨rfl, by decide, rfl, by decide, ⟨_, rfl, by decide⟩, rfl, by decide, by decide⟩

/-- C11, amended: for a `QNotifiedProperty` whose call-back takes the old value and a write
`setValue(owner, v)` that the guard accepts (or without guard), the owner call-back is invoked
exactly once if the candidate as the guard leaves it (`v` itself unless a guard taking it by
reference rewrote it) differs from the value that `value()` returned immediately before the
store, and not at all if it is equal; when invoked, it comes after `notifyObservers` and its
argument is that returned value.  The forwarding overload, where it exists, does the same. -/
theorem QNotifiedProperty.setValue_callback_gets_old_value {T : Type} (ti : TypeInfo T)
    (cfg : NotifiedConfig T) (eq : T → T → Bool) (heq : ti.operator_eq = some eq)
    (hold : cfg.CallbackAcceptsOldValue = true) (m : Machine T) (v : T)
    (haccept : (cfg.guard.invoke v).1 = true) :
    (eq (cfg.guard.invoke v).2 (QNotifiedProperty.value m).1 = false →
      callbackCount (QNotifiedProperty.setValue ti cfg m v).trace = callbackCount m.trace + 1 ∧
      (QNotifiedProperty.setValue ti cfg m v).trace
        = (QNotifiedProperty.value m).2.trace ++
            [Event.setValueAndReturnTrueIfChanged (cfg.guard.invoke v).2,
             Event.notifyObservers (QNotifiedProperty.value m).2.d.priv.observers,
             Event.callback (some (QNotifiedProperty.value m).1),
             Event.removeBinding]) ∧
    (eq (cfg.guard.invoke v).2 (QNotifiedProperty.value m).1 = true →
      callbackCount (QNotifiedProperty.setValue ti cfg m v).trace = callbackCount m.trace) ∧
    callbackCount (QNotifiedProperty.value m).2.trace = callbackCount m.trace ∧
    (∀ m2, QNotifiedProperty.setValue_forward ti cfg m v = some m2 →
      m2 = QNotifiedProperty.setValue ti cfg m v) := by
  have hbs : QNotifiedProperty.beforeStore cfg m = (QNotifiedProperty.value m).2 := by
    simp [QNotifiedProperty.beforeStore, hold]
  have harg : QNotifiedProperty.oldValueArgument cfg m = some (QNotifiedProperty.value m).1 := by
    simp [QNotifiedProperty.oldValueArgument, hold]
  have hret : (QNotifiedProperty.value m).2.d.value = (QNotifiedProperty.value m).1 := rfl
  have hq := QNotifiedProperty.beforeStore_quiet cfg m
  rw [hbs] at hq
  have htr := QNotifiedProperty.setValue_body_trace_eq ti cfg eq heq m (cfg.guard.invoke v).2
  rw [← QNotifiedProperty.setValue_of_accept ti cfg m v haccept, hbs, harg, hret] at htr
  refine ⟨?_, ?_, hq.1, ?_⟩
  · intro hdiff
    rw [htr]
    simp [hdiff, callbackCount_append, callbackCount, hq.1]
  · intro hsame
    rw [htr]
    simp [hsame, callbackCount_append, callbackCount, hq.1]
  · intro m2 h
    cases hg : cfg.guard with
    | nullptr =>
      simp [QNotifiedProperty.setValue_forward, NotifiedConfig.ValueGuardModifiesArgument,
        NotifiedConfig.HasValueGuard, hg] at h
      simp [QNotifiedProperty.setValue, NotifiedConfig.HasValueGuard, hg, h]
    | byValue g =>
      simp [QNotifiedProperty.setValue_forward, NotifiedConfig.ValueGuardModifiesArgument, hg] at h
    | byReference g =>
      simp [QNotifiedProperty.setValue_forward, NotifiedConfig.ValueGuardModifiesArgument, hg] at h

/-- Witness of C11 as amended: the guard rejects even values, the property stores `3`; the write
of `5` is accepted and the call-back fires once, after the observers, with the previous value
`3`. -/
theorem QNotifiedProperty.setValue_callback_gets_old_value_witness :
    intInfo.operator_eq = some (fun a b => a == b) ∧
    oddOnly.CallbackAcceptsOldValue = true ∧
    (oddOnly.guard.invoke 5).1 = true ∧
    (QNotifiedProperty.value plainThree).1 = 3 ∧
    callbackCount (QNotifiedProperty.setValue intInfo oddOnly plainThree 5).trace
      = callbackCount plainThree.trace + 1 ∧
    (QNotifiedProperty.setValue intInfo oddOnly plainThree 5).trace
      = (QNotifiedProperty.value plainThree).2.trace ++
          [Event.setValueAndReturnTrueIfChanged (oddOnly.guard.invoke 5).2,
           Event.notifyObservers (QNotifiedProperty.value plainThree).2.d.priv.observers,
           Event.callback (some (QNotifiedProperty.value plainThree).1),
           Event.removeBinding] :=
  ⟨rfl, rfl, by decide, by decide,
   ((QNotifiedProperty.setValue_callback_gets_old_value intInfo oddOnly _ rfl rfl plainThree 5
      (by decide)).1 (by decide)).1,
   ((QNotifiedProperty.setValue_callback_gets_old_value intInfo oddOnly _ rfl rfl plainThree 5
      (by decide)).1 (by decide)).2⟩

/-- C14: the binding adaptor calls the user function exactly once.  For `T` with `operator==` it
returns true exactly when the function's result differs from the value in the target storage;
on true the storage holds the result, on false the storage is left untouched, and for a
structural equality the storage then equals the result in both cases.  For `T` without
`operator==` it always stores the result and returns true. -/
theorem QPropertyBinding.BindingAdaptor_stores_and_reports_change {T : Type} (ti : TypeInfo T)
    (f : Nat) (impl : Unit → T) (dataPtr : T) :
    (QPropertyBinding.BindingAdaptor ti f impl dataPtr).2 = [Event.functor f] ∧
    functorCount f (QPropertyBinding.BindingAdaptor ti f impl dataPtr).2 = 1 ∧
    (∀ eq, ti.operator_eq = some eq →
      ((QPropertyBinding.BindingAdaptor ti f impl dataPtr).1.1 = true
        ↔ eq (impl ()) dataPtr = false) ∧
      ((QPropertyBinding.BindingAdaptor ti f impl dataPtr).1.1 = true →
        (QPropertyBinding.BindingAdaptor ti f impl dataPtr).1.2 = impl ()) ∧
      ((QPropertyBinding.BindingAdaptor ti f impl dataPtr).1.1 = false →
        (QPropertyBinding.BindingAdaptor ti f impl dataPtr).1.2 = dataPtr) ∧
      ((∀ a b : T, eq a b = true → a = b) →
        (QPropertyBinding.BindingAdaptor ti f impl dataPtr).1.2 = impl ())) ∧
    (ti.operator_eq = none →
      (QPropertyBinding.BindingAdaptor ti f impl dataPtr).1 = (true, impl ())) := by
  cases heq : ti.operator_eq with
  | none => simp [QPropertyBinding.BindingAdaptor, heq, functorCount]
  | some eq =>
    by_cases h : eq (impl ()) dataPtr = true
    · simp only [QPropertyBinding.BindingAdaptor, heq, h, functorCount]
      simp
      exact ⟨h, fun hs => (hs _ _ h).symm⟩
    · simp only [QPropertyBinding.BindingAdaptor, heq, h, functorCount]
      simp
      simpa using h

/-- Witness of C14: the function returns `42`; over storage `3` the adaptor stores `42` and
returns true, over storage `42` it returns false and the storage stays `42`; for the type
without `operator==` it returns true also over storage `42`. -/
theorem QPropertyBinding.BindingAdaptor_stores_and_reports_change_witness :
    intInfo.operator_eq = some (fun a b => a == b) ∧
    (QPropertyBinding.BindingAdaptor intInfo 10 (fun _ => 42) 3).1.1 = true ∧
    (QPropertyBinding.BindingAdaptor intInfo 10 (fun _ => 42) 3).1.2 = 42 ∧
    (QPropertyBinding.BindingAdaptor intInfo 10 (fun _ => 42) 42).1.1 = false ∧
    (QPropertyBinding.BindingAdaptor intInfo 10 (fun _ => 42) 42).1.2 = 42 ∧
    blobInfo.operator_eq = none ∧
    (QPropertyBinding.BindingAdaptor blobInfo 10 (fun _ => 42) 42).1 = (true, 42) :=
  ⟨rfl,
   by decide,
   ((QPropertyBinding.BindingAdaptor_stores_and_reports_change intInfo 10 (fun _ => 42) 3).2.2.1
      _ rfl).2.1 (by decide),
   by decide,
   ((QPropertyBinding.BindingAdaptor_stores_and_reports_change intInfo 10 (fun _ => 42) 42).2.2.1
      _ rfl).2.2.1 (by decide),
   rfl,
   (QPropertyBinding.BindingAdaptor_stores_and_reports_change blobInfo 10 (fun _ => 42) 42).2.2.2
      rfl⟩

/-- C15, the code at the failing input: a notified property (call-back with old value, guard
accepting odd values) caches `3` under a dirty binding that evaluates to `42`; `setValue(owner, 5)`
evaluates the binding, compares and stores `5`, notifies the observers and the owner call-back,
and only then drops the binding, so the binding is still attached while they run.
`QProperty::setValue(5)` on the same property drops the binding first. -/
theorem QNotifiedProperty.setValue_drops_binding_last :
    (oddOnly.guard.invoke 5).1 = true ∧
    QNotifiedProperty.hasBinding boundThree = true ∧
    (QNotifiedProperty.setValue intInfo oddOnly boundThree 5).trace
      = [Event.evaluateIfDirty, Event.evaluationFunction 1,
         Event.registerWithCurrentlyEvaluatingBinding,
         Event.setValueAndReturnTrueIfChanged 5,
         Event.notifyObservers [QPropertyObserver.ObserverNotifiesChangeHandler 7],
         Event.callback (some 42),
         Event.removeBinding] ∧
    QNotifiedProperty.hasBinding
      (QPropertyValueStorage.setValueAndReturnTrueIfChanged intInfo
        (QNotifiedProperty.beforeStore oddOnly boundThree) 5).2 = true ∧
    (QProperty.setValue intInfo boundThree 5).trace
      = [Event.removeBinding,
         Event.setValueAndReturnTrueIfChanged 5,
         Event.notifyObservers [QPropertyObserver.ObserverNotifiesChangeHandler 7]] ∧
    QProperty.hasBinding
      (QPropertyValueStorage.setValueAndReturnTrueIfChanged intInfo
        (QPropertyBase.removeBinding boundThree) 5).2 = false := by
  refine ⟨by decide, rfl, by decide, by decide, by decide, by decide⟩


/-! ## Auxiliary facts about the dispatch -/

/-- A property of the machine that every dispatched node keeps is kept by the whole walk. -/
theorem QPropertyBase.notifyObservers_dispatching_keeps {T : Type} (u : UserCode T)
    (P : Machine T → Prop) (hP : ∀ o s, P s → P (u.observer o s)) (m : Machine T)
    (h0 : P (QPropertyBase.notifyObservers m)) :
    P (QPropertyBase.notifyObservers_dispatching u m) := by
  unfold QPropertyBase.notifyObservers_dispatching
  generalize QPropertyBase.notifyObservers m = s0 at h0
  induction m.d.priv.observers generalizing s0 with
  | nil => simpa using h0
  | cons o os ih => exact ih _ (hP o s0 h0)

/-- With user code that does not touch the property the dispatch is the bare call. -/
theorem QPropertyBase.notifyObservers_dispatching_inert {T : Type} (m : Machine T) :
    QPropertyBase.notifyObservers_dispatching UserCode.inert m
      = QPropertyBase.notifyObservers m :=
  QPropertyBase.notifyObservers_dispatching_keeps UserCode.inert
    (fun s => s = QPropertyBase.notifyObservers m) (fun _ _ h => h) m rfl

/-- With user code that does not touch the property, `QProperty::setValue` with the dispatch is
the function that records the notification as one event. -/
theorem QProperty.setValue_dispatching_inert {T : Type} (ti : TypeInfo T) (m : Machine T)
    (v : T) :
    QProperty.setValue_dispatching ti UserCode.inert m v = QProperty.setValue ti m v := by
  simp [QProperty.setValue_dispatching, QProperty.setValue, QProperty.notify_dispatching,
    QProperty.notify, QPropertyBase.notifyObservers_dispatching_inert]

/-- The compare-and-store of `QProperty::setValue`: the binding is gone before it, and it leaves
in storage `v`, or the old value when `operator==` said that `v` equals it. -/
theorem QProperty.setValue_store {T : Type} (ti : TypeInfo T) (m : Machine T) (v : T) :
    (QPropertyValueStorage.setValueAndReturnTrueIfChanged ti
      (QPropertyBase.removeBinding m) v).2.d.priv.binding = none ∧
    ((QPropertyValueStorage.setValueAndReturnTrueIfChanged ti
        (QPropertyBase.removeBinding m) v).2.d.value = v ∨
      ∃ eq, ti.operator_eq = some eq ∧ eq v m.d.value = true ∧
        (QPropertyValueStorage.setValueAndReturnTrueIfChanged ti
          (QPropertyBase.removeBinding m) v).1 = false ∧
        (QPropertyValueStorage.setValueAndReturnTrueIfChanged ti
          (QPropertyBase.removeBinding m) v).2.d.value = m.d.value) := by
  cases heq : ti.operator_eq with
  | none =>
    simp [QPropertyValueStorage.setValueAndReturnTrueIfChanged, heq, QPropertyBase.removeBinding]
  | some eq =>
    by_cases h : eq v m.d.value = true <;>
      simp [QPropertyValueStorage.setValueAndReturnTrueIfChanged, heq,
        QPropertyBase.removeBinding, h]

/-- The property after `QProperty::setValue` with the dispatch, when no dispatched node writes to
a property without binding or binds it. -/
theorem QProperty.setValue_dispatching_d {T : Type} (ti : TypeInfo T) (u : UserCode T)
    (hquiet : ∀ o s, s.d.priv.binding = none →
      (u.observer o s).d.value = s.d.value ∧ (u.observer o s).d.priv.binding = none)
    (m : Machine T) (v : T) :
    (QProperty.setValue_dispatching ti u m v).d.priv.binding = none ∧
    ((QProperty.setValue_dispatching ti u m v).d.value = v ∨
      ∃ eq, ti.operator_eq = some eq ∧ eq v m.d.value = true ∧
        (QProperty.setValue_dispatching ti u m v).d.value = m.d.value) := by
  have hs := QProperty.setValue_store ti m v
  have hwalk : ∀ s : Machine T, s.d.priv.binding = none →
      (QPropertyBase.notifyObservers_dispatching u s).d.priv.binding = none ∧
      (QPropertyBase.notifyObservers_dispatching u s).d.value = s.d.value := by
    intro s hb
    exact QPropertyBase.notifyObservers_dispatching_keeps u
      (fun x => x.d.priv.binding = none ∧ x.d.value = s.d.value)
      (fun o x hx => ⟨(hquiet o x hx.1).2, by rw [(hquiet o x hx.1).1, hx.2]⟩) s ⟨hb, rfl⟩
  simp only [QProperty.setValue_dispatching, QProperty.notify_dispatching]
  by_cases hr : (QPropertyValueStorage.setValueAndReturnTrueIfChanged ti
      (QPropertyBase.removeBinding m) v).1 = true
  · have hw := hwalk _ hs.1
    rw [if_pos hr]
    refine ⟨hw.1, ?_⟩
    rw [hw.2]
    rcases hs.2 with h | ⟨eq, heq, hsame, hfalse, hkeep⟩
    · exact Or.inl h
    · rw [hr] at hfalse; cases hfalse
  · rw [if_neg hr]
    refine ⟨hs.1, ?_⟩
    rcases hs.2 with h | ⟨eq, heq, hsame, hfalse, hkeep⟩
    · exact Or.inl h
    · exact Or.inr ⟨eq, heq, hsame, hkeep⟩

/-- A read of a property without binding leaves it without binding. -/
theorem QProperty.value_keeps_no_binding {T : Type} (m : Machine T)
    (h : m.d.priv.binding = none) : (QProperty.value m).2.d.priv.binding = none := by
  simp only [QProperty.value, QPropertyBase.hasBinding, h, Option.isSome_none,
    Bool.false_eq_true, if_false,
    (QPropertyBase.registerWithCurrentlyEvaluatingBinding_frame m).2.1]

/-- Handlers that only read do not write to a property without binding and do not bind it. -/
theorem readsValue_quiet : ∀ (o : QPropertyObserver) (s : Machine Int),
    s.d.priv.binding = none →
      (readsValue.observer o s).d.value = s.d.value ∧
      (readsValue.observer o s).d.priv.binding = none := by
  intro o s hb
  cases o with
  | ObserverNotifiesBinding b => exact ⟨rfl, hb⟩
  | ObserverNotifiesAlias a => exact ⟨rfl, hb⟩
  | ObserverNotifiesChangeHandler f =>
    have hb2 : ({ s with trace := s.trace ++ [Event.functor f] } : Machine Int).d.priv.binding
        = none := hb
    exact ⟨(QProperty.value_of_no_binding _ hb2).2.1, QProperty.value_keeps_no_binding _ hb2⟩

/-- What the member functions of an alias do when its pointer is null (lines 690-709, 808-811):
not valid, `T()` on a read, nothing on a write. -/
theorem QPropertyAlias.members_on_null_pointer {T : Type} (ti : TypeInfo T)
    (al : QPropertyAlias) (hnull : al.aliasedPropertyPtr = none) (w : World T) (v : T) :
    QPropertyAlias.isValid al = false ∧
    (QPropertyAlias.value ti al w).1 = ti.default ∧
    (QPropertyAlias.value ti al w).2 = w ∧
    QPropertyAlias.setValue ti al w v = w ∧
    QPropertyAlias.setValue_rvalue ti al w v = w := by
  simp [QPropertyAlias.isValid, QPropertyAlias.value, QPropertyAlias.setValue,
    QPropertyAlias.setValue_rvalue, QPropertyAlias.aliasedProperty, hnull]

/-- What `setValue` of an alias does when its pointer refers to the property at `a` (lines
699-709): the call is forwarded to that property. -/
theorem QPropertyAlias.setValue_on_live_pointer {T : Type} (ti : TypeInfo T)
    (al : QPropertyAlias) (a : Nat) (hlive : al.aliasedPropertyPtr = some a) (w : World T)
    (v : T) :
    QPropertyAlias.setValue ti al w v = w.store a (QProperty.setValue ti (w.load a) v) ∧
    QPropertyAlias.setValue_rvalue ti al w v
      = w.store a (QProperty.setValue_rvalue ti (w.load a) v) ∧
    QPropertyAlias.isValid al = true := by
  simp [QPropertyAlias.setValue, QPropertyAlias.setValue_rvalue, QPropertyAlias.isValid,
    QPropertyAlias.aliasedProperty, hlive]

/-- With the result type its constraint asks for, `setSource(property)` is well-formed and the
attaching constructor links the handler in front of the observer list. -/
theorem QPropertyChangeHandler.fromProperty_of_ref {T : Type} (m : Machine T) (f : Nat) :
    QPropertyChangeHandler.fromProperty PropertyBaseType.QPropertyBase_ref m f
      = some ({ m_handler := f, linked := true },
              QPropertyObserver.setSource m
                (QPropertyObserver.ObserverNotifiesChangeHandler f)) := by
  simp [QPropertyChangeHandler.fromProperty, QPropertyObserver.setSource_property,
    QPropertyObserver.setSource_viable]

/-! ## The claims about what a property holds after a write, and about attaching observers -/

/-- C2, counterexample: two writes to the property that holds `3` after which `value()` does not
return the value written.  First, its change handler writes `8` back (spec 4.E, scenario 5):
`setValue(7)` stores `7`, the handler runs and stores `8`, runs once more for that write and
changes nothing, and `value()` returns `8`.  Second, `operator==` of the value type compares
parity: `setValue(5)` finds `5` equal to the stored `3`, stores nothing, and `value()` returns
`3`. -/
theorem QProperty.setValue_then_value_may_differ :
    (QProperty.setValue_dispatching intInfo (writesBack 8 2) plainThree 7).trace
      = [Event.removeBinding, Event.setValueAndReturnTrueIfChanged 7,
         Event.notifyObservers [QPropertyObserver.ObserverNotifiesChangeHandler 7],
         Event.functor 7,
         Event.removeBinding, Event.setValueAndReturnTrueIfChanged 8,
         Event.notifyObservers [QPropertyObserver.ObserverNotifiesChangeHandler 7],
         Event.functor 7,
         Event.removeBinding, Event.setValueAndReturnTrueIfChanged 8] ∧
    (QProperty.value (QProperty.setValue_dispatching intInfo (writesBack 8 2) plainThree 7)).1
      = 8 ∧
    ¬ ((QProperty.value
          (QProperty.setValue_dispatching intInfo (writesBack 8 2) plainThree 7)).1 = 7) ∧
    (∃ eq, parityInfo.operator_eq = some eq ∧ eq 5 plainThree.d.value = true) ∧
    (QProperty.value (QProperty.setValue_dispatching parityInfo UserCode.inert plainThree 5)).1
      = 3 ∧
    ¬ ((QProperty.value
          (QProperty.setValue_dispatching parityInfo UserCode.inert plainThree 5)).1 = 5) := by
  refine ⟨by decide, by decide, by decide, ⟨_, rfl, by decide⟩, by decide, by decide⟩

/-- C2, amended: `QProperty::setValue(v)` drops the binding before it compares and stores, with
or without a binding attached.  After it returns, provided no observer dispatched by the
notification writes to the property or binds it, `hasBinding()` is false and `value()` returns
`v`, or, when `operator==` said that `v` equals the value in storage, that stored value; the
read evaluates nothing.  For a structural equality the value read is `v`. -/
theorem QProperty.setValue_dispatching_then_value {T : Type} (ti : TypeInfo T) (u : UserCode T)
    (m : Machine T) (v : T) :
    QProperty.hasBinding (QPropertyBase.removeBinding m) = false ∧
    QProperty.hasBinding
      (QPropertyValueStorage.setValueAndReturnTrueIfChanged ti
        (QPropertyBase.removeBinding m) v).2 = false ∧
    ((∀ o s, s.d.priv.binding = none →
        (u.observer o s).d.value = s.d.value ∧ (u.observer o s).d.priv.binding = none) →
      QProperty.hasBinding (QProperty.setValue_dispatching ti u m v) = false ∧
      ((QProperty.value (QProperty.setValue_dispatching ti u m v)).1 = v ∨
        ∃ eq, ti.operator_eq = some eq ∧ eq v m.d.value = true ∧
          (QProperty.value (QProperty.setValue_dispatching ti u m v)).1 = m.d.value) ∧
      (QProperty.value (QProperty.setValue_dispatching ti u m v)).2.trace
        = (QProperty.setValue_dispatching ti u m v).trace ++
            [Event.registerWithCurrentlyEvaluatingBinding] ∧
      ((∀ eq, ti.operator_eq = some eq → ∀ a b : T, eq a b = true → a = b) →
        (QProperty.value (QProperty.setValue_dispatching ti u m v)).1 = v)) ∧
    QProperty.setValue_rvalue_dispatching ti u m v = QProperty.setValue_dispatching ti u m v ∧
    QProperty.setValue_dispatching ti UserCode.inert m v = QProperty.setValue ti m v := by
  refine ⟨rfl, ?_, ?_, rfl, QProperty.setValue_dispatching_inert ti m v⟩
  · simp [QProperty.hasBinding, QPropertyBase.hasBinding, (QProperty.setValue_store ti m v).1]
  · intro hquiet
    obtain ⟨hb, hv⟩ := QProperty.setValue_dispatching_d ti u hquiet m v
    have hr := QProperty.value_of_no_binding (QProperty.setValue_dispatching ti u m v) hb
    refine ⟨by simp [QProperty.hasBinding, QPropertyBase.hasBinding, hb], ?_, hr.2.2, ?_⟩
    · rw [hr.1]; exact hv
    · intro hstructural
      rw [hr.1]
      rcases hv with h | ⟨eq, heq, hsame, hkeep⟩
      · exact h
      · rw [hkeep]; exact (hstructural eq heq v m.d.value hsame).symm

/-- Witness of C2 as amended: the change handler of the property reads it; writing `7` over the
cached `3` under a dirty binding leaves no binding and `value()` returns `7`. -/
theorem QProperty.setValue_dispatching_then_value_witness :
    QProperty.hasBinding boundThree = true ∧
    QProperty.hasBinding (QProperty.setValue_dispatching intInfo readsValue boundThree 7)
      = false ∧
    ((QProperty.value (QProperty.setValue_dispatching intInfo readsValue boundThree 7)).1 = 7 ∨
      ∃ eq, intInfo.operator_eq = some eq ∧ eq 7 boundThree.d.value = true ∧
        (QProperty.value (QProperty.setValue_dispatching intInfo readsValue boundThree 7)).1
          = boundThree.d.value) ∧
    (QProperty.value (QProperty.setValue_dispatching intInfo readsValue boundThree 7)).1 = 7 :=
  ⟨rfl,
   ((QProperty.setValue_dispatching_then_value intInfo readsValue boundThree 7).2.2.1
      readsValue_quiet).1,
   ((QProperty.setValue_dispatching_then_value intInfo readsValue boundThree 7).2.2.1
      readsValue_quiet).2.1,
   by decide⟩

/-- C13, the code at the failing input: `subscribe(f)` and `onValueChanged(f)` on a property.
Both end in the attaching constructor of `QPropertyChangeHandler`, whose `setSource(property)`
(line 628) has no viable overload: the template of line 570 asks for a `propertyBase()` of type
`QtPrivate::QPropertyBase &`, lines 326 and 532 declare `const QtPrivate::QPropertyBase &`, and
the overload of line 585 does not take a property.  So the members cannot be instantiated: `f`
is not called and no handler is attached, on a `QProperty`, on a `QNotifiedProperty` and through
an alias.  With the result type the constraint asks for, the same constructor links the handler
in front of the observer list.  The same defect is behind C8 and C9. -/
theorem subscribe_is_ill_formed :
    QProperty.propertyBase_type = PropertyBaseType.const_QPropertyBase_ref ∧
    QNotifiedProperty.propertyBase_type = PropertyBaseType.const_QPropertyBase_ref ∧
    QPropertyObserver.setSource_viable PropertyBaseType.const_QPropertyBase_ref = false ∧
    (QProperty.onValueChanged plainThree 9).isNone = true ∧
    (QProperty.subscribe plainThree 9).isNone = true ∧
    (QNotifiedProperty.onValueChanged plainThree 9).isNone = true ∧
    (QNotifiedProperty.subscribe plainThree 9).isNone = true ∧
    (QPropertyAlias.onValueChanged { aliasedPropertyPtr := none } worldOfThrees 9).isNone
      = true ∧
    (QPropertyAlias.subscribe { aliasedPropertyPtr := none } worldOfThrees 9).isNone = true ∧
    (QPropertyAlias.subscribe { aliasedPropertyPtr := some 0 } worldOfThrees 9).isNone = true ∧
    ((QPropertyChangeHandler.fromProperty PropertyBaseType.QPropertyBase_ref plainThree 9).map
      (fun r => (r.1, r.2.d.priv.observers)))
      = some ({ m_handler := 9, linked := true },
              [QPropertyObserver.ObserverNotifiesChangeHandler 9,
               QPropertyObserver.ObserverNotifiesChangeHandler 7]) := by
  refine ⟨rfl, rfl, rfl, rfl, rfl, rfl, rfl, rfl, rfl, rfl, rfl⟩


end QtProperty
